import Mathlib

/-!
Verification development for the `betterbubble-ai-assistant-cdk` chat Lambda
(`lambda_functions/ai_assistant/lambda_function.py`).

The pure string/intent logic of the handler (intent classification, budget
extraction, knowledge extraction, search-result de-duplication, thread-id
management) is embedded directly.  External collaborators (Cognito JWKS,
DynamoDB, the search backends, Bedrock) are modelled as explicit state
(`Store`) plus an oracle record (`World`) holding the outcome of each network
interaction, exactly as the Python code consumes those outcomes.  Machine
timestamps are modelled as natural numbers of epoch seconds; Python decimal
rendering of integers (f-strings, `str(int)`) is modelled by `natRepr`.
-/

/-- Single-quote character as a string (used to build Python string literals
that contain an apostrophe). -/
def apos : String := String.singleton (Char.ofNat 39)

/-- Python `\s` character class: space, tab, newline, carriage return,
vertical tab, form feed. -/
def isWs (c : Char) : Bool :=
  c = ' ' || c = '\t' || c = '\n' || c = '\r' || c = Char.ofNat 11 || c = Char.ofNat 12

/-- Python `\w` character class (ASCII portion): letters, digits, underscore. -/
def isWordCh (c : Char) : Bool := c.isAlphanum || c = '_'

/-- Does `pat` occur at the head of `l`?  (list-level `startswith`). -/
def listStarts [DecidableEq α] : List α → List α → Bool
  | [], _ => true
  | _ :: _, [] => false
  | a :: as, b :: bs => a = b && listStarts as bs

/-- Does `pat` occur anywhere in `l`?  Models Python `pat in s` for strings. -/
def occursIn [DecidableEq α] (pat : List α) : List α → Bool
  | [] => listStarts pat []
  | l@(_ :: rest) => listStarts pat l || occursIn pat rest

/-- Python `sub in s` (substring containment). -/
def strContains (s pat : String) : Bool := occursIn pat.data s.data

/-- Index of the first occurrence of `pat` in `l` (Python `s.find(pat)` when
the result is non-negative). -/
def occIdx [DecidableEq α] (pat : List α) : List α → Option Nat
  | [] => if listStarts pat [] then some 0 else none
  | l@(_ :: rest) =>
    if listStarts pat l then some 0
    else (occIdx pat rest).map (· + 1)

/-- Python `str.lower()` (ASCII case folding, which is all the handler uses). -/
def lowerStr (s : String) : String := String.mk (s.data.map Char.toLower)

/-- Python `str.strip()` (whitespace strip at both ends). -/
def pyStrip (s : String) : String :=
  String.mk (((s.data.dropWhile isWs).reverse.dropWhile isWs).reverse)

/-- Python `s.startswith(pat)`. -/
def strStarts (s pat : String) : Bool := listStarts pat.data s.data

/-- Python `sep.join(parts)`. -/
def joinWith (sep : String) : List String → String
  | [] => ""
  | [w] => w
  | w :: ws => w ++ sep ++ joinWith sep ws

/-- Case-insensitive match of the literal pattern `pat` (given lower-case)
against the head of `l`; returns the rest on success.  Models a literal
fragment of a regex compiled with `re.IGNORECASE`. -/
def litCI : List Char → List Char → Option (List Char)
  | [], l => some l
  | _ :: _, [] => none
  | p :: ps, c :: cs => if p = c.toLower then litCI ps cs else none

/-- Like `litCI` but also returns the consumed characters in their original
case (for regex group captures). -/
def litCIcap : List Char → List Char → Option (List Char × List Char)
  | [], l => some ([], l)
  | _ :: _, [] => none
  | p :: ps, c :: cs =>
    if p = c.toLower then (litCIcap ps cs).map (fun r => (c :: r.1, r.2)) else none

/-- Decimal digit characters value. -/
def digitsVal (ds : List Char) : Nat := ds.foldl (fun n c => 10 * n + (c.toNat - 48)) 0

/-- Character for a decimal digit. -/
def digitChar10 (d : Nat) : Char := Char.ofNat (48 + d)

/-- Reversed decimal digits of `n`, fuel-bounded so that the definition is
structural (the fuel `n` always suffices since `n / 10 < n` for `n > 0`). -/
def natDigitsRevAux : Nat → Nat → List Char
  | 0, _ => []
  | _ + 1, 0 => []
  | f + 1, n + 1 => digitChar10 ((n + 1) % 10) :: natDigitsRevAux f ((n + 1) / 10)

/-- Decimal rendering of a natural number; models Python `str(int)` /
f-string formatting of the non-negative integers the handler formats. -/
def natRepr (n : Nat) : String :=
  if n = 0 then "0" else String.mk (natDigitsRevAux n n).reverse

/-- Numeric value of a reversed digit list (left inverse used to prove that
`natRepr` is injective). -/
def valOfDigitsRev : List Char → Nat
  | [] => 0
  | c :: cs => (c.toNat - 48) + 10 * valOfDigitsRev cs

theorem digitChar10_toNat (d : Nat) (h : d < 10) : (digitChar10 d).toNat = 48 + d := by
  interval_cases d <;> decide

theorem valOfDigitsRev_natDigitsRevAux (f : Nat) :
    ∀ n, n ≤ f → valOfDigitsRev (natDigitsRevAux f n) = n := by
  induction f with
  | zero => intro n hn; interval_cases n; decide
  | succ f ih =>
    intro n hn
    cases n with
    | zero => simp [natDigitsRevAux, valOfDigitsRev]
    | succ n =>
      have hdiv : (n + 1) / 10 ≤ f := by
        have h1 : (n + 1) / 10 < n + 1 := Nat.div_lt_self (Nat.succ_pos n) (by decide)
        omega
      have hmod : (n + 1) % 10 < 10 := Nat.mod_lt _ (by decide)
      simp only [natDigitsRevAux, valOfDigitsRev, ih _ hdiv,
        digitChar10_toNat _ hmod]
      omega

theorem natRepr_val (n : Nat) : valOfDigitsRev (natRepr n).data.reverse = n := by
  by_cases h : n = 0
  · subst h; decide
  · rw [natRepr, if_neg h]
    show valOfDigitsRev ((natDigitsRevAux n n).reverse).reverse = n
    rw [List.reverse_reverse]
    exact valOfDigitsRev_natDigitsRevAux n n (Nat.le_refl n)

theorem natRepr_injective : Function.Injective natRepr := by
  intro a b hab
  have h := congrArg (fun s => valOfDigitsRev s.data.reverse) hab
  simp only [natRepr_val] at h
  exact h

/-! ### Intent classification (`is_admin_knowledge_command`, `extract_knowledge_from_command`, `is_budget_command`) -/

/-- Fixed command-phrase list of `is_admin_knowledge_command`. -/
def admin_commands : List String :=
  ["remember that", "remember the", "permanently remember",
   "admin knowledge", "set knowledge", "permanent fact"]

/-- `is_admin_knowledge_command(message)`: case-insensitive substring check
against the fixed command-phrase list. -/
def is_admin_knowledge_command (message : String) : Bool :=
  let ml := lowerStr message
  admin_commands.any (fun cmd => strContains ml cmd)

/-- The starter list of `extract_knowledge_from_command` (note the trailing
space / colon-space that each starter carries in the source). -/
def knowledge_starters : List String :=
  ["remember that ", "remember the ", "permanently remember ",
   "admin knowledge: ", "set knowledge: ", "permanent fact: "]

/-- Python `message.split()`: split on whitespace runs, dropping empties. -/
def pySplitGo : List Char → List Char → List String
  | acc, [] => if acc.isEmpty then [] else [String.mk acc.reverse]
  | acc, c :: rest =>
    if isWs c then
      if acc.isEmpty then pySplitGo [] rest
      else String.mk acc.reverse :: pySplitGo [] rest
    else pySplitGo (c :: acc) rest

def pySplit (s : String) : List String := pySplitGo [] s.data

/-- The fallback loop of `extract_knowledge_from_command`: the words after the
first whole word equal (case-insensitively) to "remember" that has at least
one word after it. -/
def afterRememberWords : List String → Option (List String)
  | [] => none
  | w :: ws =>
    if lowerStr w = "remember" && !ws.isEmpty then some ws else afterRememberWords ws

/-- `extract_knowledge_from_command(message)`: the (stripped) substring of the
original message after the first occurrence of the first starter (in list
order) contained in the lower-cased message; else the words after a whole
word "remember"; else the stripped message. -/
def extract_knowledge_from_command (message : String) : String :=
  let ml := lowerStr message
  match knowledge_starters.find? (fun st => strContains ml st) with
  | some st =>
    match occIdx st.data ml.data with
    | some i => pyStrip (String.mk (message.data.drop (i + st.data.length)))
    | none => pyStrip message
  | none =>
    if strContains ml "remember" then
      match afterRememberWords (pySplit message) with
      | some ws => pyStrip (joinWith " " ws)
      | none => pyStrip message
    else pyStrip message

/-- Spending vocabulary of `is_budget_command`. -/
def budget_indicators : List String :=
  ["spent", "spend", "budget", "expense", "cost", "paid", "bought", "purchased", "invested"]

/-- Spending patterns of `is_budget_command`. -/
def spending_patterns : List String :=
  ["spent $", "spent ", "spend $", "cost $", "paid $", "bought ", "purchased ", "invested $"]

/-- `is_budget_command(message)`. -/
def is_budget_command (message : String) : Bool :=
  let ml := lowerStr message
  budget_indicators.any (fun w => strContains ml w) ||
    spending_patterns.any (fun w => strContains ml w)

/-! ### Budget extraction (`extract_budget_info`)

Each Python regex of `extract_budget_info` is embedded as a hand-rolled
matcher implementing exactly that pattern's leftmost-match backtracking
semantics under `re.IGNORECASE` (patterns are all-lower-case literals,
character classes, `\d`, `\s`, greedy `+`/optional groups and lazy `+?`). -/

/-- Generic leftmost scan: try the at-position matcher at every position of
the list (including the final empty position), leftmost success wins. -/
def searchScan (m : List Char → Option α) : List Char → Option α
  | [] => m []
  | l@(_ :: rest) =>
    match m l with
    | some v => some v
    | none => searchScan m rest

/-- Amount of a matched `\d+(?:\.\d{2})?` numeral as an exact rational
(models the Python `float(...)` of the matched text, which is exact for the
`N` / `N.dd` shapes this regex can produce). -/
def amountOf (ds : List Char) (frac : Option (Char × Char)) : ℚ :=
  match frac with
  | none => (digitsVal ds : ℚ)
  | some (d1, d2) => (digitsVal ds : ℚ) + (digitsVal [d1, d2] : ℚ) / 100

/-- `\$(\d+(?:\.\d{2})?)` at one position. -/
def matchDollarAt : List Char → Option ℚ
  | '$' :: rest =>
    let ds := rest.takeWhile Char.isDigit
    let r1 := rest.dropWhile Char.isDigit
    if ds.isEmpty then none
    else
      match r1 with
      | '.' :: d1 :: d2 :: _ =>
        if d1.isDigit && d2.isDigit then some (amountOf ds (some (d1, d2)))
        else some (amountOf ds none)
      | _ => some (amountOf ds none)
  | _ => none

/-- `(\d+(?:\.\d{2})?)\s*unit s?` at one position (`unit` is "dollar" or
"buck"; the trailing `s?` never affects whether the numeral matches). -/
def matchUnitAmtAt (unit : List Char) (l : List Char) : Option ℚ :=
  let ds := l.takeWhile Char.isDigit
  let r1 := l.dropWhile Char.isDigit
  if ds.isEmpty then none
  else
    let tryTail : ℚ → List Char → Option ℚ := fun v r =>
      if (litCI unit (r.dropWhile isWs)).isSome then some v else none
    match r1 with
    | '.' :: d1 :: d2 :: r2 =>
      if d1.isDigit && d2.isDigit then
        match tryTail (amountOf ds (some (d1, d2))) r2 with
        | some v => some v
        | none => tryTail (amountOf ds none) r1
      else tryTail (amountOf ds none) r1
    | _ => tryTail (amountOf ds none) r1

/-- The amount loop of `extract_budget_info`: the three amount patterns are
tried in order, each searched over the whole message. -/
def extractAmount (message : String) : Option ℚ :=
  match searchScan matchDollarAt message.data with
  | some v => some v
  | none =>
    match searchScan (matchUnitAmtAt "dollar".data) message.data with
    | some v => some v
    | none => searchScan (matchUnitAmtAt "buck".data) message.data

/-- Python truthiness of the extracted amount (`if amount:`): `None` and `0.0`
are both falsy. -/
def amountTruthy : Option ℚ → Bool
  | none => false
  | some a => decide (a ≠ 0)

/-- The character class `[^,.!?]` of the category patterns. -/
def catCh (c : Char) : Bool := !(c = ',' || c = '.' || c = '!' || c = '?')

/-- Tail alternative `\s+word` (one-or-more whitespace, then a literal). -/
def tailWord (w : List Char) : List Char → Bool
  | [] => false
  | c :: r => isWs c && (litCI w (r.dropWhile isWs)).isSome

/-- Lazy capture `([^,.!?]+?)` followed by one of the tail alternatives: the
capture is extended one character at a time and the (pattern-final) tail is
tried after each extension, so the shortest successful capture wins. -/
def capGo (alts : List (List Char → Bool)) : List Char → List Char → Option (List Char)
  | _, [] => none
  | acc, c :: rest =>
    if catCh c then
      let acc2 := acc ++ [c]
      if alts.any (fun t => t rest) then some acc2
      else capGo alts acc2 rest
    else none

/-- `kw\s+([^,.!?]+?)(?:alts)` at one position: literal keyword, then `\s+`
tried greedily (longest whitespace run first, backtracking to shorter runs),
then the lazy capture. -/
def matchKwCapAt (kw : List Char) (alts : List (List Char → Bool)) (l : List Char) :
    Option (List Char) :=
  match litCI kw l with
  | none => none
  | some r => tryWsLen ((r.takeWhile isWs).length) r
  where tryWsLen : Nat → List Char → Option (List Char)
    | 0, _ => none
    | k + 1, r =>
      match capGo alts [] (r.drop (k + 1)) with
      | some g => some g
      | none => tryWsLen k r

/-- Tail alternatives of category pattern `on\s+([^,.!?]+?)(?:\s+for|\s+will|\s+to|\s+and|$)`. -/
def catAlts1 : List (List Char → Bool) :=
  [tailWord "for".data, tailWord "will".data, tailWord "to".data, tailWord "and".data,
   fun l => l.isEmpty]

/-- Tail alternatives of category pattern `for\s+([^,.!?]+?)(?:\s+will|\s+to|\s+and|$)`. -/
def catAlts2 : List (List Char → Bool) :=
  [tailWord "will".data, tailWord "to".data, tailWord "and".data, fun l => l.isEmpty]

/-- The fixed filler words removed from a matched category
(`\b(today|this|that|the|a|an)\b`, tried in alternation order). -/
def fillerWords : List String := ["today", "this", "that", "the", "a", "an"]

/-- Try to match one filler word (with the trailing word boundary) at the
current position; returns the last consumed character and the rest. -/
def tryFiller (l : List Char) : Option (Char × List Char) :=
  go fillerWords
  where go : List String → Option (Char × List Char)
    | [] => none
    | w :: ws =>
      match litCIcap w.data l with
      | some (consumed, rest) =>
        let boundaryAfter := match rest with | [] => true | c :: _ => !isWordCh c
        match consumed.getLast? with
        | some lastc => if boundaryAfter then some (lastc, rest) else go ws
        | none => go ws
      | none => go ws

/-- Scanner of `re.sub(r'\b(today|this|that|the|a|an)\b', '', category)`:
word boundaries are judged against the original text, and scanning resumes
after each removed word. -/
def fillerSubGo : Nat → Option Char → List Char → List Char
  | 0, _, l => l
  | _ + 1, _, [] => []
  | fuel + 1, prev, c :: rest =>
    let boundaryBefore := match prev with | none => true | some p => !isWordCh p
    if boundaryBefore && isWordCh c then
      match tryFiller (c :: rest) with
      | some (lastc, rest2) => fillerSubGo fuel (some lastc) rest2
      | none => c :: fillerSubGo fuel (some c) rest
    else c :: fillerSubGo fuel (some c) rest

/-- The filler-word removal applied to a matched category. -/
def fillerSub (s : String) : String :=
  String.mk (fillerSubGo (s.data.length + 1) none s.data)

/-- `([^,.!?]+?)\s+expense` and `([^,.!?]+?)\s+cost` leftmost searches, and
the two keyword category patterns. -/
def catPattern1 (msg : List Char) : Option (List Char) :=
  searchScan (matchKwCapAt "on".data catAlts1) msg

def catPattern2 (msg : List Char) : Option (List Char) :=
  searchScan (matchKwCapAt "for".data catAlts2) msg

def catPattern3 (msg : List Char) : Option (List Char) :=
  searchScan (capGo [tailWord "expense".data] []) msg

def catPattern4 (msg : List Char) : Option (List Char) :=
  searchScan (capGo [tailWord "cost".data] []) msg

/-- The category loop of `extract_budget_info`: patterns tried in order, a
match whose cleaned form is empty falls through to the next pattern, and an
overall empty/absent category later becomes `"General"`. -/
def extract_category (message : String) : Option String :=
  ([catPattern1 message.data, catPattern2 message.data,
    catPattern3 message.data, catPattern4 message.data].filterMap
    (fun o => o.bind (fun g =>
      let c := pyStrip (fillerSub (pyStrip (String.mk g)))
      if c = "" then none else some c))).head?

/-- Duration unit words (without the optional plural `s`). -/
def unitWordsD : List (List Char) := ["month".data, "week".data, "day".data, "year".data]

/-- `(?:months?|weeks?|days?|years?)` matches at this position. -/
def unitHere (l : List Char) : Bool := unitWordsD.any (fun w => (litCI w l).isSome)

/-- `\s+(\d+)\s+(?:months?|weeks?|days?|years?)` (the shared tail of the
first two duration patterns); returns the digit group value. -/
def numUnitAfter : List Char → Option Nat
  | [] => none
  | c :: rest =>
    if isWs c then
      let r1 := rest.dropWhile isWs
      let ds := r1.takeWhile Char.isDigit
      if ds.isEmpty then none
      else
        match r1.dropWhile Char.isDigit with
        | c2 :: rest2 =>
          if isWs c2 && unitHere (rest2.dropWhile isWs) then some (digitsVal ds) else none
        | [] => none
    else none

/-- `for\s+(\d+)\s+(?:months?|weeks?|days?|years?)` at one position. -/
def matchD1At (l : List Char) : Option Nat :=
  match litCI "for".data l with
  | none => none
  | some r => numUnitAfter r

/-- `will\s+last\s+(\d+)\s+(?:months?|weeks?|days?|years?)` at one position. -/
def matchD2At (l : List Char) : Option Nat :=
  match litCI "will".data l with
  | none => none
  | some r =>
    match r with
    | c :: rest =>
      if isWs c then
        match litCI "last".data (rest.dropWhile isWs) with
        | some r2 => numUnitAfter r2
        | none => none
      else none
    | [] => none

/-- Possible remainders after `(?:months?|weeks?|days?|years?)` at this
position, in backtracking order (plural form preferred). -/
def unitRests (l : List Char) : List (List Char) :=
  unitWordsD.foldr (fun w acc =>
    (match litCI (w ++ [ 's' ]) l with | some r => [r] | none => []) ++
      (match litCI w l with | some r => [r] | none => []) ++ acc) []

/-- `\s+(?:of|worth)` at this position. -/
def ofWorthAfter : List Char → Bool
  | [] => false
  | c :: rest =>
    isWs c &&
      ((litCI "of".data (rest.dropWhile isWs)).isSome ||
        (litCI "worth".data (rest.dropWhile isWs)).isSome)

/-- `(\d+)\s+(?:months?|weeks?|days?|years?)\s+(?:of|worth)` at one position. -/
def matchD3At (l : List Char) : Option Nat :=
  let ds := l.takeWhile Char.isDigit
  if ds.isEmpty then none
  else
    match l.dropWhile Char.isDigit with
    | c :: rest =>
      if isWs c then
        if (unitRests (rest.dropWhile isWs)).any ofWorthAfter then some (digitsVal ds)
        else none
      else none
    | [] => none

/-- The duration loop of `extract_budget_info`. -/
def extractDuration (message : String) : Option Nat :=
  match searchScan matchD1At message.data with
  | some n => some n
  | none =>
    match searchScan matchD2At message.data with
    | some n => some n
    | none => searchScan matchD3At message.data

/-- Capture of `(months?|weeks?|days?|years?)` in original case, with the
greedy optional plural `s` preferred. -/
def unitCapture (l : List Char) : Option (List Char) :=
  unitWordsD.foldr (fun w acc =>
    match litCIcap (w ++ [ 's' ]) l with
    | some (cap, _) => some cap
    | none =>
      match litCIcap w l with
      | some (cap, _) => some cap
      | none => acc) none

/-- `(\d+)\s+(months?|weeks?|days?|years?)` at one position, returning the
unit group. -/
def matchUnitGroupAt (l : List Char) : Option (List Char) :=
  let ds := l.takeWhile Char.isDigit
  if ds.isEmpty then none
  else
    match l.dropWhile Char.isDigit with
    | c :: rest => if isWs c then unitCapture (rest.dropWhile isWs) else none
    | [] => none

/-- Python `str.rstrip('s')`: remove all trailing lowercase `s`. -/
def rstripS (l : List Char) : List Char :=
  (l.reverse.dropWhile (fun c => c = 's')).reverse

/-- Python `s.replace(old, '')`: remove all (leftmost, non-overlapping)
case-sensitive occurrences. -/
def pyEraseAll : Nat → List Char → List Char → List Char
  | 0, _, l => l
  | _ + 1, _, [] => []
  | fuel + 1, old, c :: rest =>
    if listStarts old (c :: rest) then pyEraseAll fuel old ((c :: rest).drop old.length)
    else c :: pyEraseAll fuel old rest

def pyReplaceEmpty (s old : String) : String :=
  String.mk (pyEraseAll (s.data.length + 1) old.data s.data)

/-- `re.sub(r'\$\d+(?:\.\d{2})?', '', description)`. -/
def subDollarGo : Nat → List Char → List Char
  | 0, l => l
  | _ + 1, [] => []
  | fuel + 1, '$' :: r =>
    let ds := r.takeWhile Char.isDigit
    if ds.isEmpty then '$' :: subDollarGo fuel r
    else
      match r.dropWhile Char.isDigit with
      | '.' :: d1 :: d2 :: r2 =>
        if d1.isDigit && d2.isDigit then subDollarGo fuel r2
        else subDollarGo fuel ('.' :: d1 :: d2 :: r2)
      | r1 => subDollarGo fuel r1
  | fuel + 1, c :: rest => c :: subDollarGo fuel rest

/-- `\s*dollars?` tail of the worded amount sub (whitespace, the word, and
the greedy optional plural all consumed). -/
def numWordTail (r : List Char) : Option (List Char) :=
  match litCI "dollar".data (r.dropWhile isWs) with
  | some r2 =>
    match r2 with
    | c :: r3 => if c = 's' || c = 'S' then some r3 else some r2
    | [] => some r2
  | none => none

/-- `\d+(?:\.\d{2})?\s*dollars?` at a digit position: remainder after the
match, if any. -/
def matchNumWordLen (l : List Char) : Option (List Char) :=
  let ds := l.takeWhile Char.isDigit
  if ds.isEmpty then none
  else
    match l.dropWhile Char.isDigit with
    | '.' :: d1 :: d2 :: r2 =>
      if d1.isDigit && d2.isDigit then
        match numWordTail r2 with
        | some rem => some rem
        | none => numWordTail ('.' :: d1 :: d2 :: r2)
      else numWordTail ('.' :: d1 :: d2 :: r2)
    | r1 => numWordTail r1

/-- `re.sub(r'\d+(?:\.\d{2})?\s*dollars?', '', description, flags=IGNORECASE)`. -/
def subDollarWordGo : Nat → List Char → List Char
  | 0, l => l
  | _ + 1, [] => []
  | fuel + 1, c :: rest =>
    if c.isDigit then
      match matchNumWordLen (c :: rest) with
      | some rem => subDollarWordGo fuel rem
      | none => c :: subDollarWordGo fuel rest
    else c :: subDollarWordGo fuel rest

/-- `re.sub(r'\s+', ' ', description)`. -/
def collapseWs : Nat → List Char → List Char
  | 0, l => l
  | _ + 1, [] => []
  | fuel + 1, c :: rest =>
    if isWs c then ' ' :: collapseWs fuel (rest.dropWhile isWs)
    else c :: collapseWs fuel rest

/-- Result record of `extract_budget_info` (the `date` field, an ISO
timestamp in the source, is modelled as epoch seconds). -/
structure BudgetInfo where
  amount : Option ℚ
  category : String
  duration : Option Nat
  duration_unit : Option String
  description : String
  date : Nat
deriving DecidableEq

/-- `extract_budget_info(message)` (with the call-time clock passed in). -/
def extract_budget_info (message : String) (now : Nat) : BudgetInfo :=
  let amount := extractAmount message
  let categoryOpt := extract_category message
  let duration := extractDuration message
  let duration_unit :=
    match duration with
    | some _ => (searchScan matchUnitGroupAt message.data).map
        (fun cap => String.mk (rstripS cap))
    | none => none
  let d1 :=
    match categoryOpt with
    | some cat => pyReplaceEmpty (pyReplaceEmpty message ("on " ++ cat)) ("for " ++ cat)
    | none => message
  let d2 :=
    if amountTruthy amount then
      let e1 := subDollarGo (d1.data.length + 1) d1.data
      String.mk (subDollarWordGo (e1.length + 1) e1)
    else d1
  let description := pyStrip (String.mk (collapseWs (d2.data.length + 1) d2.data))
  { amount := amount, category := categoryOpt.getD "General", duration := duration,
    duration_unit := duration_unit, description := description, date := now }

/-! ### Authenticator (`verify_jwt_token`)

The cryptographic primitives live in the external JWT library; the oracle
inputs are the JWKS key-id list fetched from Cognito, the token header's
`kid`, the outcome of the signature/issuer verification performed by
`jwt.decode`, and the decoded payload.  Every raised exception is caught by
the function's blanket handler and becomes `None`. -/

/-- Decoded JWT payload fields the handler reads. -/
structure JwtPayload where
  sub : String
  client_id : Option String
  token_use : Option String
deriving DecidableEq

/-- `verify_jwt_token(token, user_pool_id)`: key lookup by `kid`, signature
and issuer verification, then the explicit `client_id` and `token_use`
checks; any failure returns `none`. -/
def verify_jwt_token (jwksKids : List String) (kid : String) (sigAndIssuerOk : Bool)
    (payload : JwtPayload) (expectedClientId : Option String) : Option JwtPayload :=
  if jwksKids.contains kid then
    if sigAndIssuerOk then
      if payload.client_id = expectedClientId then
        if payload.token_use = some "access" then some payload
        else none
      else none
    else none
  else none

/-! ### Research-engine de-duplication (`get_unseen_results` and the
seen-result backfill block of `search_web_for_query`) -/

/-- One web-search result as produced by the search phases. -/
structure SearchResult where
  title : String
  content : String
  url : String
  source : String
deriving DecidableEq

/-- One persisted `SearchHistoryRecord` row (fields the dedup logic reads,
plus the identifying/query fields the save path writes). -/
structure SearchHistoryRecord where
  user_id : String
  topic : String
  search_id : String
  search_query : String
  result_title : String
  result_url : String
  result_source : String
  searched_at : Nat
  ttl : Nat
deriving DecidableEq

/-- `get_unseen_results(all_results, search_history)`: `seen_urls` collects
only *truthy* (non-empty) history URLs, and a result is unseen when its URL
is not in that set. -/
def get_unseen_results (all : List SearchResult) (history : List SearchHistoryRecord) :
    List SearchResult :=
  let seenUrls := (history.filter (fun h => h.result_url ≠ "")).map (fun h => h.result_url)
  all.filter (fun r => !seenUrls.contains r.url)

/-- The seen-result list of the backfill block (`r.get('url') in
[h.get('result_url') ...]` — note this list keeps empty history URLs). -/
def seenResultsOf (all : List SearchResult) (history : List SearchHistoryRecord) :
    List SearchResult :=
  all.filter (fun r => (history.map (fun h => h.result_url)).contains r.url)

/-- Lines 792–805 of `search_web_for_query`: prefer unseen results, backfill
with seen ones when short, and cap at `max_results`. -/
def select_search_results (all : List SearchResult) (history : List SearchHistoryRecord)
    (maxResults : Nat) : List SearchResult :=
  let unseen := get_unseen_results all history
  let padded :=
    if unseen.length < maxResults then
      unseen ++ (seenResultsOf all history).take (maxResults - unseen.length)
    else unseen
  padded.take maxResults

/-! ### Data model and external-state embedding -/

/-- A user profile row (`users` table). -/
structure UserItem where
  user_id : String
  email : String
  name : String
  role : String
  notes : String
  created_at : Nat
  last_active : Option Nat
  status : String
  ttl : Nat
deriving DecidableEq

/-- An admin-knowledge row (`admin-knowledge` table; account-wide key). -/
structure KnowledgeItem where
  knowledge_id : String
  knowledge : String
  created_at : Nat
  created_by : String
  ttl : Nat
deriving DecidableEq

/-- A budget row (`budget` table). -/
structure BudgetItem where
  budget_id : String
  user_id : String
  amount : ℚ
  category : String
  description : String
  duration : Option Nat
  duration_unit : Option String
  date : Nat
  organization : String
  created_at : Nat
  ttl : Nat
deriving DecidableEq

/-- A reminder row (`reminders` table); `due_date` is epoch milliseconds. -/
structure ReminderItem where
  user_id : String
  reminder_id : String
  reminder_text : String
  due_date : Nat
  reminder_type : String
  created_at : Nat
  status : String
  ttl : Nat
deriving DecidableEq

/-- A conversation-turn row (`conversations` table); `timestamp` is epoch
seconds. -/
structure ConvItem where
  user_id : String
  conversation_id : String
  thread_id : String
  topic : String
  timestamp : Nat
  user_message : String
  ai_response : String
  ttl : Nat
deriving DecidableEq

/-- A task row (`tasks` table; only counted by the admin endpoints). -/
structure TaskItem where
  user_id : String
  task_id : String
  status : String
deriving DecidableEq

/-- The DynamoDB tables the handler touches.  Lists ordered as the handler's
queries return them: `conversations` and `searchHistory` newest-first (their
sort keys embed the creation timestamp and every query uses
`ScanIndexForward=False`), `reminders` and the rest in insertion order. -/
structure Store where
  users : List UserItem
  adminKnowledge : List KnowledgeItem
  budget : List BudgetItem
  reminders : List ReminderItem
  conversations : List ConvItem
  searchHistory : List SearchHistoryRecord
  tasks : List TaskItem
deriving DecidableEq

/-- Outcome of the Bedrock `invoke_model` call. -/
inductive BedrockOutcome
  | ok (text : String)
  | missingContent
  | failure
deriving DecidableEq

/-- Oracle record: the outcome of every network interaction of one
invocation, consumed exactly where the Python code performs the call. -/
structure World where
  now : Nat
  jwksKids : List String
  kid : String
  sigOk : Bool
  payload : JwtPayload
  webResults : List SearchResult
  bedrock : BedrockOutcome
  convPutOk : Bool
  adminPutOk : Bool
  userPutOk : Bool
  knowledgeScanErr : Option String
  knowledgeDeleteErr : Option String
deriving DecidableEq

/-- Relevant environment variables (with their defaults already applied,
except `COGNITO_USER_POOL_ID` whose absence the handler checks). -/
structure Env where
  userPoolId : String
  clientId : Option String
  adminApiKey : String
deriving DecidableEq

/-- An inbound API-Gateway event, with the JSON body already parsed into the
fields the handler reads (defaults applied as in the source). -/
structure Request where
  httpMethod : String
  path : String
  authHeader : String
  adminKeyHeader : String
  message : String
  start_new_thread : Bool
  topic : String
  bodyKnowledge : String
  bodyEmail : String
  bodyName : String
  bodyRole : String
  bodyNotes : String
deriving DecidableEq

/-- A user row as returned by the admin user endpoints (profile plus usage
counts). -/
structure UserStats where
  user : UserItem
  conversation_count : Nat
  reminder_count : Nat
  task_count : Nat
deriving DecidableEq

/-- JSON response bodies, by shape (`Body.error m` models
`json.dumps({'error': m})`, `Body.message m` models
`json.dumps({'message': m})`, and so on). -/
inductive Body
  | empty
  | error (msg : String)
  | message (msg : String)
  | chat (response user_id thread_id topic : String) (timestamp : Nat)
      (reminder_created : Option String) (due_reminders_count : Nat)
      (next_reminder : Option String)
  | adminStatus (is_admin : Bool) (user_id : String)
  | usersB (users : List UserStats)
  | userB (user : UserStats)
  | createdUser (msg : String) (user_id : String)
  | statsB (total_users active_users total_conversations total_reminders : Nat)
  | knowledgeB (items : List KnowledgeItem)
  | cleanupB (msg : String) (cleaned_items : Nat)
deriving DecidableEq

/-- An HTTP response (CORS headers omitted: constant in the source). -/
structure Response where
  statusCode : Nat
  body : Body
deriving DecidableEq

/-- Downstream interactions, recorded in order (used to state that a request
is rejected before any downstream call is made). -/
inductive Call
  | verify_token
  | db_read
  | db_write
  | web_search
  | model_invoke
deriving DecidableEq

/-- Result of one handler invocation: response, post-state, call trace. -/
structure HandlerResult where
  resp : Response
  store : Store
  trace : List Call
deriving DecidableEq

/-! ### Store operations -/

/-- `is_user_admin(user_id)`: role lookup with default role `user` and
`False` for unknown users. -/
def is_user_admin (user_id : String) (s : Store) : Bool :=
  match s.users.find? (fun u => u.user_id == user_id) with
  | some u => u.role == "admin"
  | none => false

/-- A freshly minted thread id
(`f"thread_{user_id}_{topic}_{int(timestamp)}"`). -/
def mintThreadId (user_id topic : String) (t : Nat) : String :=
  "thread_" ++ user_id ++ "_" ++ topic ++ "_" ++ natRepr t

/-- `get_conversation_history`: DynamoDB applies `Limit` to the items read
by the key condition *before* `FilterExpression`, so this query returns the
topic-filtered subset of the user's `limit` most recent turns of any topic,
oldest-first. -/
def get_conversation_history (user_id : String) (s : Store) (topic : String) (limit : Nat) :
    List ConvItem :=
  (((s.conversations.filter (fun c => c.user_id == user_id)).take limit).filter
    (fun c => c.topic == topic)).reverse

/-- `get_or_create_thread_id`: the `Limit=1` query evaluates only the user's
single most recent turn of *any* topic (DynamoDB applies `Limit` before
`FilterExpression`); only if that turn is on this topic and younger than 30
minutes is its thread id reused, otherwise a new one is minted. -/
def get_or_create_thread_id (user_id : String) (s : Store) (topic : String) (now : Nat) : String :=
  match (((s.conversations.filter (fun c => c.user_id == user_id)).take 1).filter
      (fun c => c.topic == topic)).head? with
  | some latest =>
    if now - latest.timestamp < 1800 then latest.thread_id
    else mintThreadId user_id topic now
  | none => mintThreadId user_id topic now

/-- `get_due_reminders`: pending reminders due at or before now (epoch ms);
this query has no `Limit`, so the filter sees every row of the user. -/
def get_due_reminders (user_id : String) (s : Store) (now : Nat) : List ReminderItem :=
  s.reminders.filter (fun r =>
    r.user_id == user_id && decide (r.due_date ≤ now * 1000) && r.status == "pending")

/-- `get_next_reminder`: the `Limit=1` query evaluates only the user's first
reminder in sort-key (creation) order and then filters it (DynamoDB applies
`Limit` before `FilterExpression`); the display text if that one row is
pending and due in the future. -/
def get_next_reminder (user_id : String) (s : Store) (now : Nat) : Option String :=
  ((((s.reminders.filter (fun r => r.user_id == user_id)).take 1).filter (fun r =>
    decide (now * 1000 < r.due_date) && r.status == "pending")).head?).map
    (fun r => r.reminder_text)

/-- `save_admin_knowledge`: append a knowledge row (10-year TTL). -/
def save_admin_knowledge (knowledge_text : String) (now : Nat) (s : Store) : Store :=
  { s with adminKnowledge := s.adminKnowledge ++
      [{ knowledge_id := "knowledge_" ++ natRepr now, knowledge := knowledge_text,
         created_at := now, created_by := "admin", ttl := now + 86400 * 365 * 10 }] }

/-- `save_budget_entry`: append a budget row (5-year TTL, fixed
organization). -/
def save_budget_entry (user_id : String) (bi : BudgetInfo) (amount : ℚ) (now : Nat) (s : Store) :
    Store :=
  { s with budget := s.budget ++
      [{ budget_id := "budget_" ++ natRepr now, user_id := user_id, amount := amount,
         category := bi.category, description := bi.description, duration := bi.duration,
         duration_unit := bi.duration_unit, date := bi.date, organization := "BetterBubble",
         created_at := now, ttl := now + 86400 * 365 * 5 }] }

/-- `create_reminder`: append a pending reminder due 24 hours out (the
handler never passes an explicit due date). -/
def create_reminder (user_id reminder_text : String) (now : Nat) (s : Store) : Store :=
  { s with reminders := s.reminders ++
      [{ user_id := user_id, reminder_id := "rem_" ++ natRepr now,
         reminder_text := reminder_text, due_date := (now + 86400) * 1000,
         reminder_type := "general", created_at := now, status := "pending",
         ttl := now + 86400 * 30 }] }

/-- `get_search_history`: last 50 history rows of this `(user_id, topic)`. -/
def get_search_history (user_id topic : String) (s : Store) : List SearchHistoryRecord :=
  (s.searchHistory.filter (fun h => h.user_id == user_id && h.topic == topic)).take 50

/-- `save_search_results`: one history row per selected result. -/
def save_search_results (user_id topic search_query : String) (results : List SearchResult)
    (now : Nat) (s : Store) : Store :=
  { s with searchHistory :=
      (results.enum.map (fun p =>
        { user_id := user_id, topic := topic,
          search_id := user_id ++ "_" ++ topic ++ "_" ++ natRepr now ++ "_" ++ natRepr p.1,
          search_query := search_query, result_title := p.2.title, result_url := p.2.url,
          result_source := p.2.source, searched_at := now,
          ttl := now + 86400 * 7 : SearchHistoryRecord })) ++ s.searchHistory }

/-- `search_web_for_query`: the accumulated raw results of phases 1–3 are the
network oracle's contribution (`World.webResults`); the function then
deduplicates against history, selects, and persists the selection. -/
def search_web_for_query (user_message user_id topic : String) (maxResults : Nat)
    (allResults : List SearchResult) (s : Store) (now : Nat) :
    List SearchResult × Store :=
  let history := get_search_history user_id topic s
  let selected := select_search_results allResults history maxResults
  (selected,
    if selected.isEmpty then s
    else save_search_results user_id topic user_message selected now s)

/-- `create_user_profile`: append a user row (1-year TTL). -/
def create_user_profile (email name role notes : String) (now : Nat) (s : Store) : Store :=
  { s with users := s.users ++
      [{ user_id := "user_" ++ natRepr now, email := email, name := name, role := role,
         notes := notes, created_at := now, last_active := none, status := "active",
         ttl := now + 86400 * 365 }] }

/-- Usage counts attached to a user row by the admin endpoints. -/
def userStatsOf (s : Store) (u : UserItem) : UserStats :=
  { user := u,
    conversation_count := (s.conversations.filter (fun c => c.user_id == u.user_id)).length,
    reminder_count := (s.reminders.filter (fun r =>
      r.user_id == u.user_id && r.status == "pending")).length,
    task_count := (s.tasks.filter (fun t =>
      t.user_id == u.user_id && t.status == "pending")).length }

/-- `get_all_users`. -/
def get_all_users (s : Store) : List UserStats := s.users.map (userStatsOf s)

/-- `get_user_by_id`. -/
def get_user_by_id (user_id : String) (s : Store) : Option UserStats :=
  (s.users.find? (fun u => u.user_id == user_id)).map (userStatsOf s)

/-- `delete_user`: remove the profile and all per-user rows. -/
def delete_user (user_id : String) (s : Store) : Store :=
  { s with
    users := s.users.filter (fun u => u.user_id != user_id),
    conversations := s.conversations.filter (fun c => c.user_id != user_id),
    reminders := s.reminders.filter (fun r => r.user_id != user_id),
    tasks := s.tasks.filter (fun t => t.user_id != user_id) }

/-- `get_system_stats` (a user is active when `last_active` is within 24
hours; the comparison is stated overflow-safely for `Nat`). -/
def get_system_stats (s : Store) (now : Nat) : Body :=
  .statsB s.users.length
    ((s.users.filter (fun u =>
      match u.last_active with
      | some t => decide (now < t + 86400)
      | none => false)).length)
    s.conversations.length
    ((s.reminders.filter (fun r => r.status == "pending")).length)

/-- `cleanup_old_data`: drop conversations older than 30 days and completed
reminders created more than 30 days ago; returns the new store and the
number of removed rows. -/
def cleanup_old_data (s : Store) (now : Nat) : Store × Nat :=
  let keepConv := s.conversations.filter (fun c => decide (now ≤ c.timestamp + 86400 * 30))
  let keepRem := s.reminders.filter (fun r =>
    !(r.status == "completed" && decide (now > r.created_at + 86400 * 30)))
  ({ s with conversations := keepConv, reminders := keepRem },
    (s.conversations.length - keepConv.length) + (s.reminders.length - keepRem.length))

/-- Insertion sort of knowledge rows, newest first (the `/admin/knowledge`
listing sorts by creation date, descending). -/
def insertKnowledgeDesc (k : KnowledgeItem) : List KnowledgeItem → List KnowledgeItem
  | [] => [k]
  | x :: xs => if x.created_at ≤ k.created_at then k :: x :: xs else x :: insertKnowledgeDesc k xs

def sortKnowledgeDesc : List KnowledgeItem → List KnowledgeItem
  | [] => []
  | x :: xs => insertKnowledgeDesc x (sortKnowledgeDesc xs)

/-- Last path segment (`path.split('/')[-1]`). -/
def splitSlashGo : List Char → List Char → List String
  | acc, [] => [String.mk acc.reverse]
  | acc, c :: rest =>
    if c = '/' then String.mk acc.reverse :: splitSlashGo [] rest
    else splitSlashGo (c :: acc) rest

def lastSeg (p : String) : String := (splitSlashGo [] p.data).getLastD ""

/-! ### The handlers -/

/-- Reminder-intent phrase list of the handler. -/
def reminder_phrases : List String :=
  ["remind me to", "don" ++ apos ++ "t forget to", "i need to remember", "set a reminder for"]

/-- Budget-query vocabulary gating the budget-summary fetch. -/
def budget_query_words : List String :=
  ["budget", "spending", "expenses", "total", "summary", "tally"]

/-- Fallback text substituted when the Bedrock call fails. -/
def apologyText : String :=
  "I" ++ apos ++ "m sorry, I" ++ apos ++
    "m having trouble connecting to my AI service right now. Please try again in a moment."

/-- Fallback text substituted when the model response lacks the text field. -/
def noGenText : String := "Sorry, I could not generate a response."

/-- Confirmation appended to the model text after a reminder is created. -/
def reminderNote : String :=
  "\n\n✅ I" ++ apos ++ "ve created a reminder for you! I" ++ apos ++
    "ll remind you about this when it" ++ apos ++ "s time."

/-- The authenticated chat pipeline (source lines 1792–1929): context reads,
privilege-gated intent effects, research, completion, reminder creation, and
conversation persistence.  Always returns 200: every downstream failure is
absorbed by a fallback, exactly as in the source. -/
def chat_main (req : Request) (s : Store) (w : World) (payload : JwtPayload) : HandlerResult :=
  let user_id := payload.sub
  let ml := lowerStr req.message
  let historyTrace : List Call := if req.start_new_thread then [] else [.db_read]
  let due := get_due_reminders user_id s w.now
  let nextRem := get_next_reminder user_id s w.now
  -- admin-knowledge command, honoured for admin users only
  let knowledgeFires := is_admin_knowledge_command req.message
  let kWrote := knowledgeFires && is_user_admin user_id s &&
    extract_knowledge_from_command req.message != "" && w.adminPutOk
  let s1 :=
    if knowledgeFires then
      if is_user_admin user_id s then
        let k := extract_knowledge_from_command req.message
        if k ≠ "" then
          if w.adminPutOk then save_admin_knowledge k w.now s else s
        else s
      else s
    else s
  -- budget command, honoured for admin users only and only with a truthy amount
  let budgetFires := is_budget_command req.message
  let bWrote := budgetFires && is_user_admin user_id s1 &&
    amountTruthy (extract_budget_info req.message w.now).amount
  let s2 :=
    if budgetFires then
      if is_user_admin user_id s1 then
        let bi := extract_budget_info req.message w.now
        match bi.amount with
        | some a => if amountTruthy bi.amount then save_budget_entry user_id bi a w.now s1 else s1
        | none => s1
      else s1
    else s1
  -- budget-summary fetch (admin and budget vocabulary); feeds the prompt only
  let summaryTrace : List Call :=
    if is_user_admin user_id s2 && budget_query_words.any (fun p => strContains ml p) then
      [.db_read] else []
  -- research engine
  let sh := search_web_for_query req.message user_id req.topic 8 w.webResults s2 w.now
  let s3 := sh.2
  -- completion
  let ai :=
    match w.bedrock with
    | .ok t => t
    | .missingContent => noGenText
    | .failure => apologyText
  -- reminder creation
  let remFires := reminder_phrases.any (fun p => strContains ml p)
  let reminderCreated := if remFires then some ("rem_" ++ natRepr w.now) else none
  let s4 := if remFires then create_reminder user_id req.message w.now s3 else s3
  let ai2 := if remFires then ai ++ reminderNote else ai
  -- conversation persistence (a put failure is swallowed)
  let thread_id :=
    if req.start_new_thread then mintThreadId user_id req.topic w.now
    else get_or_create_thread_id user_id s4 req.topic w.now
  let conv : ConvItem :=
    { user_id := user_id, conversation_id := "conv_" ++ natRepr w.now, thread_id := thread_id,
      topic := req.topic, timestamp := w.now, user_message := req.message, ai_response := ai2,
      ttl := w.now + 86400 * 30 }
  let s5 := if w.convPutOk then { s4 with conversations := conv :: s4.conversations } else s4
  { resp := ⟨200, .chat ai2 user_id thread_id req.topic w.now reminderCreated due.length nextRem⟩,
    store := s5,
    trace := historyTrace ++ [.db_read, .db_read]
      ++ (if knowledgeFires then [.db_read] ++ (if kWrote then [.db_write] else []) else [])
      ++ (if budgetFires then [.db_read] ++ (if bWrote then [.db_write] else []) else [])
      ++ [.db_read, .db_read] ++ summaryTrace
      ++ [.web_search] ++ (if sh.1.isEmpty then [] else [.db_write])
      ++ [.model_invoke]
      ++ (if remFires then [.db_write] else [])
      ++ [.db_write] }

/-- The chatbot branch of `handler` (source lines 1723–1942): request
validation and authentication guard clauses, then `chat_main`. -/
def chat_request (req : Request) (env : Env) (s : Store) (w : World) : HandlerResult :=
  if req.message = "" then ⟨⟨400, .error "No message provided"⟩, s, []⟩
  else if !(strStarts req.authHeader "Bearer ") then
    ⟨⟨401, .error "No valid authorization token provided"⟩, s, []⟩
  else if env.userPoolId = "" then
    ⟨⟨500, .error "User pool configuration missing"⟩, s, []⟩
  else
    match verify_jwt_token w.jwksKids w.kid w.sigOk w.payload env.clientId with
    | none => ⟨⟨401, .error "Invalid or expired token"⟩, s, [.verify_token]⟩
    | some payload =>
      let r := chat_main req s w payload
      ⟨r.resp, r.store, Call.verify_token :: r.trace⟩

/-- `handle_admin_status_check`. -/
def handle_admin_status_check (req : Request) (env : Env) (s : Store) (w : World) :
    HandlerResult :=
  if !(strStarts req.authHeader "Bearer ") then
    ⟨⟨401, .error "No valid authorization header"⟩, s, []⟩
  else
    match verify_jwt_token w.jwksKids w.kid w.sigOk w.payload env.clientId with
    | none => ⟨⟨401, .error "Invalid token"⟩, s, [.verify_token]⟩
    | some payload =>
      if payload.sub = "" then ⟨⟨401, .error "No user ID in token"⟩, s, [.verify_token]⟩
      else
        ⟨⟨200, .adminStatus (is_user_admin payload.sub s) payload.sub⟩, s,
          [.verify_token, .db_read]⟩

/-- `handle_admin_request` (guarded by the shared admin key).  The
`/admin/knowledge` routes reproduce the source's error envelopes, which embed
`str(e)` of the caught exception (oracle fields `knowledgeScanErr` /
`knowledgeDeleteErr`). -/
def handle_admin_request (req : Request) (env : Env) (s : Store) (w : World) : HandlerResult :=
  if req.adminKeyHeader ≠ env.adminApiKey then
    ⟨⟨401, .error "Invalid admin API key"⟩, s, []⟩
  else if req.path = "/admin/users" && req.httpMethod = "GET" then
    ⟨⟨200, .usersB (get_all_users s)⟩, s, [.db_read]⟩
  else if req.path = "/admin/users" && req.httpMethod = "POST" then
    if req.bodyEmail = "" then ⟨⟨400, .error "Email is required"⟩, s, []⟩
    else if w.userPutOk then
      ⟨⟨201, .createdUser "User created successfully" ("user_" ++ natRepr w.now)⟩,
        create_user_profile req.bodyEmail req.bodyName req.bodyRole req.bodyNotes w.now s,
        [.db_write]⟩
    else ⟨⟨500, .error "Failed to create user"⟩, s, [.db_write]⟩
  else if strStarts req.path "/admin/users/" && req.httpMethod = "GET" then
    match get_user_by_id (lastSeg req.path) s with
    | some u => ⟨⟨200, .userB u⟩, s, [.db_read]⟩
    | none => ⟨⟨404, .error "User not found"⟩, s, [.db_read]⟩
  else if strStarts req.path "/admin/users/" && req.httpMethod = "DELETE" then
    ⟨⟨200, .message "User deleted successfully"⟩, delete_user (lastSeg req.path) s, [.db_write]⟩
  else if req.path = "/admin/stats" && req.httpMethod = "GET" then
    ⟨⟨200, get_system_stats s w.now⟩, s, [.db_read]⟩
  else if req.path = "/admin/knowledge" && req.httpMethod = "GET" then
    match w.knowledgeScanErr with
    | some e => ⟨⟨500, .error ("Failed to retrieve knowledge: " ++ e)⟩, s, [.db_read]⟩
    | none => ⟨⟨200, .knowledgeB (sortKnowledgeDesc s.adminKnowledge)⟩, s, [.db_read]⟩
  else if req.path = "/admin/knowledge" && req.httpMethod = "POST" then
    if pyStrip req.bodyKnowledge = "" then
      ⟨⟨400, .error "Knowledge text is required"⟩, s, []⟩
    else if w.adminPutOk then
      ⟨⟨200, .message "Knowledge added successfully"⟩,
        save_admin_knowledge (pyStrip req.bodyKnowledge) w.now s, [.db_write]⟩
    else ⟨⟨500, .error "Failed to save knowledge"⟩, s, [.db_write]⟩
  else if strStarts req.path "/admin/knowledge/" && req.httpMethod = "DELETE" then
    match w.knowledgeDeleteErr with
    | some e => ⟨⟨500, .error ("Failed to delete knowledge: " ++ e)⟩, s, [.db_write]⟩
    | none =>
      ⟨⟨200, .message "Knowledge deleted successfully"⟩,
        { s with adminKnowledge :=
            s.adminKnowledge.filter (fun k => k.knowledge_id != lastSeg req.path) },
        [.db_write]⟩
  else if req.path = "/admin/cleanup" && req.httpMethod = "POST" then
    ⟨⟨200, .cleanupB "Cleanup completed" (cleanup_old_data s w.now).2⟩,
      (cleanup_old_data s w.now).1, [.db_write]⟩
  else ⟨⟨404, .error "Admin endpoint not found"⟩, s, []⟩

/-- Top-level `handler`: CORS preflight, admin dispatch, then the chat
branch. -/
def handler (req : Request) (env : Env) (s : Store) (w : World) : HandlerResult :=
  if req.httpMethod = "OPTIONS" then ⟨⟨200, .empty⟩, s, []⟩
  else if req.path = "/admin/check-status" then handle_admin_status_check req env s w
  else if strStarts req.path "/admin" then handle_admin_request req env s w
  else chat_request req env s w

/-! ### Spec-side observation helpers -/

/-- Does a response body carry a JSON `error` field? -/
def isErrorBody : Body → Bool
  | .error _ => true
  | _ => false

/-- The fixed client-error bodies the chat endpoint can produce. -/
def fixedChatErrorBodies : List Body :=
  [.error "No message provided", .error "No valid authorization token provided",
   .error "User pool configuration missing", .error "Invalid or expired token",
   .error "Internal server error"]

/-- The model text of a chat body. -/
def chatText : Body → Option String
  | .chat r _ _ _ _ _ _ _ => some r
  | _ => none

/-! ### Frame lemmas for the store writers -/

theorem save_admin_knowledge_users (k : String) (n : Nat) (s : Store) :
    (save_admin_knowledge k n s).users = s.users := rfl

theorem save_admin_knowledge_budget (k : String) (n : Nat) (s : Store) :
    (save_admin_knowledge k n s).budget = s.budget := rfl

theorem save_budget_entry_users (u : String) (bi : BudgetInfo) (a : ℚ) (n : Nat) (s : Store) :
    (save_budget_entry u bi a n s).users = s.users := rfl

theorem save_budget_entry_adminKnowledge (u : String) (bi : BudgetInfo) (a : ℚ) (n : Nat)
    (s : Store) : (save_budget_entry u bi a n s).adminKnowledge = s.adminKnowledge := rfl

theorem create_reminder_users (u t : String) (n : Nat) (s : Store) :
    (create_reminder u t n s).users = s.users := rfl

theorem create_reminder_adminKnowledge (u t : String) (n : Nat) (s : Store) :
    (create_reminder u t n s).adminKnowledge = s.adminKnowledge := rfl

theorem create_reminder_budget (u t : String) (n : Nat) (s : Store) :
    (create_reminder u t n s).budget = s.budget := rfl

theorem save_search_results_users (u t q : String) (rs : List SearchResult) (n : Nat)
    (s : Store) : (save_search_results u t q rs n s).users = s.users := rfl

theorem save_search_results_adminKnowledge (u t q : String) (rs : List SearchResult) (n : Nat)
    (s : Store) : (save_search_results u t q rs n s).adminKnowledge = s.adminKnowledge := rfl

theorem save_search_results_budget (u t q : String) (rs : List SearchResult) (n : Nat)
    (s : Store) : (save_search_results u t q rs n s).budget = s.budget := rfl

theorem search_web_users (m u t : String) (k : Nat) (res : List SearchResult) (s : Store)
    (n : Nat) : (search_web_for_query m u t k res s n).2.users = s.users := by
  unfold search_web_for_query
  dsimp only
  split <;> rfl

theorem search_web_adminKnowledge (m u t : String) (k : Nat) (res : List SearchResult)
    (s : Store) (n : Nat) :
    (search_web_for_query m u t k res s n).2.adminKnowledge = s.adminKnowledge := by
  unfold search_web_for_query
  dsimp only
  split <;> rfl

theorem search_web_budget (m u t : String) (k : Nat) (res : List SearchResult) (s : Store)
    (n : Nat) : (search_web_for_query m u t k res s n).2.budget = s.budget := by
  unfold search_web_for_query
  dsimp only
  split <;> rfl

theorem is_user_admin_save_admin_knowledge (uid k : String) (n : Nat) (s : Store) :
    is_user_admin uid (save_admin_knowledge k n s) = is_user_admin uid s := rfl

/-! ### C1 — token-use / client-id rejection in `verify_jwt_token` -/

/-- C1: for every JWT whose payload has `token_use ≠ "access"` or whose
`client_id` differs from the expected application client id,
`verify_jwt_token` returns `none`, even when the key is found and the
signature and issuer verify. -/
theorem verify_jwt_rejects_wrong_use_or_client (jwksKids : List String) (kid : String)
    (sigOk : Bool) (p : JwtPayload) (cid : Option String)
    (h : p.token_use ≠ some "access" ∨ p.client_id ≠ cid) :
    verify_jwt_token jwksKids kid sigOk p cid = none := by
  unfold verify_jwt_token
  rcases h with h | h <;>
    · repeat' split
      all_goals simp_all

/-- Witness for C1: an ID token (`token_use = "id"`) with a known `kid`,
valid signature/issuer, and matching client id is still rejected. -/
theorem verify_jwt_rejects_wrong_use_or_client_witness :
    verify_jwt_token ["k1"] "k1" true
      { sub := "user-1", client_id := some "client-1", token_use := some "id" }
      (some "client-1") = none :=
  verify_jwt_rejects_wrong_use_or_client ["k1"] "k1" true
    { sub := "user-1", client_id := some "client-1", token_use := some "id" }
    (some "client-1") (Or.inl (by decide))

/-! ### C2 — admin-gating of knowledge commands -/

/-- C2: a chat request from a non-admin user whose message matches an
admin-knowledge command phrase writes no new `AdminKnowledge` record, and the
request still completes normally (status 200, non-error body). -/
theorem nonadmin_knowledge_command_is_noop (req : Request) (env : Env) (s : Store) (w : World)
    (p : JwtPayload)
    (hm : req.httpMethod ≠ "OPTIONS")
    (hpath : strStarts req.path "/admin" = false)
    (hmsg : req.message ≠ "")
    (hauth : strStarts req.authHeader "Bearer " = true)
    (hpool : env.userPoolId ≠ "")
    (hverify : verify_jwt_token w.jwksKids w.kid w.sigOk w.payload env.clientId = some p)
    (hnonadmin : is_user_admin p.sub s = false)
    (hcmd : is_admin_knowledge_command req.message = true) :
    (handler req env s w).resp.statusCode = 200 ∧
      isErrorBody (handler req env s w).resp.body = false ∧
      (handler req env s w).store.adminKnowledge = s.adminKnowledge := by
  have hcs : req.path ≠ "/admin/check-status" := by
    intro h; rw [h] at hpath; exact absurd hpath (by decide)
  unfold handler
  rw [if_neg hm, if_neg hcs, if_neg (by simp [hpath])]
  unfold chat_request
  rw [if_neg hmsg, if_neg (by simp [hauth]), if_neg hpool, hverify]
  refine ⟨rfl, rfl, ?_⟩
  unfold chat_main
  dsimp only
  simp [hcmd, hnonadmin, search_web_adminKnowledge, create_reminder_adminKnowledge,
    apply_ite Store.adminKnowledge]

/-- Witness for C2: a concrete non-admin request saying
"remember that the sky is green" leaves the knowledge table unchanged and
gets a 200 non-error response. -/
theorem nonadmin_knowledge_command_is_noop_witness :
    let req : Request :=
      { httpMethod := "POST", path := "/chat", authHeader := "Bearer tok",
        adminKeyHeader := "", message := "remember that the sky is green",
        start_new_thread := false, topic := "General", bodyKnowledge := "",
        bodyEmail := "", bodyName := "", bodyRole := "", bodyNotes := "" }
    let env : Env :=
      { userPoolId := "pool-1", clientId := some "client-1", adminApiKey := "admin-key-2024" }
    let s : Store :=
      { users := [{ user_id := "u1", email := "u1@example.com", name := "U One",
                    role := "user", notes := "", created_at := 0, last_active := none,
                    status := "active", ttl := 10 }],
        adminKnowledge := [], budget := [], reminders := [], conversations := [],
        searchHistory := [], tasks := [] }
    let w : World :=
      { now := 1000, jwksKids := ["k1"], kid := "k1", sigOk := true,
        payload := { sub := "u1", client_id := some "client-1", token_use := some "access" },
        webResults := [], bedrock := .ok "Hello!", convPutOk := true, adminPutOk := true,
        userPutOk := true, knowledgeScanErr := none, knowledgeDeleteErr := none }
    (handler req env s w).resp.statusCode = 200 ∧
      isErrorBody (handler req env s w).resp.body = false ∧
      (handler req env s w).store.adminKnowledge = s.adminKnowledge := by
  exact nonadmin_knowledge_command_is_noop _ _ _ _
    { sub := "u1", client_id := some "client-1", token_use := some "access" }
    (by decide) (by decide) (by decide) (by decide) (by decide) (by decide) (by decide)
    (by decide)

/-! ### C10 — a zero extracted amount is never persisted -/

/-- C10: for an admin-role chat request whose message matches budget
vocabulary but whose extracted amount is exactly `0` (e.g. "$0"), no
`BudgetEntry` row is written — the persistence gate tests Python truthiness
of the amount, and `0.0` is falsy. -/
theorem zero_amount_budget_not_persisted (req : Request) (env : Env) (s : Store) (w : World)
    (p : JwtPayload)
    (hm : req.httpMethod ≠ "OPTIONS")
    (hpath : strStarts req.path "/admin" = false)
    (hmsg : req.message ≠ "")
    (hauth : strStarts req.authHeader "Bearer " = true)
    (hpool : env.userPoolId ≠ "")
    (hverify : verify_jwt_token w.jwksKids w.kid w.sigOk w.payload env.clientId = some p)
    (hadmin : is_user_admin p.sub s = true)
    (hbud : is_budget_command req.message = true)
    (hzero : (extract_budget_info req.message w.now).amount = some 0) :
    (handler req env s w).resp.statusCode = 200 ∧
      (handler req env s w).store.budget = s.budget := by
  have hcs : req.path ≠ "/admin/check-status" := by
    intro h; rw [h] at hpath; exact absurd hpath (by decide)
  unfold handler
  rw [if_neg hm, if_neg hcs, if_neg (by simp [hpath])]
  unfold chat_request
  rw [if_neg hmsg, if_neg (by simp [hauth]), if_neg hpool, hverify]
  refine ⟨rfl, ?_⟩
  unfold chat_main
  dsimp only
  simp [hbud, hzero, hadmin, amountTruthy, is_user_admin_save_admin_knowledge,
    save_admin_knowledge_budget, search_web_budget, create_reminder_budget,
    apply_ite Store.budget, apply_ite (is_user_admin p.sub)]

/-- Witness for C10: an admin user reporting "spent $0 on coffee" leaves the
budget table unchanged. -/
theorem zero_amount_budget_not_persisted_witness :
    let req : Request :=
      { httpMethod := "POST", path := "/chat", authHeader := "Bearer tok",
        adminKeyHeader := "", message := "spent $0 on coffee",
        start_new_thread := false, topic := "General", bodyKnowledge := "",
        bodyEmail := "", bodyName := "", bodyRole := "", bodyNotes := "" }
    let env : Env :=
      { userPoolId := "pool-1", clientId := some "client-1", adminApiKey := "admin-key-2024" }
    let s : Store :=
      { users := [{ user_id := "a1", email := "a1@example.com", name := "Admin",
                    role := "admin", notes := "", created_at := 0, last_active := none,
                    status := "active", ttl := 10 }],
        adminKnowledge := [], budget := [], reminders := [], conversations := [],
        searchHistory := [], tasks := [] }
    let w : World :=
      { now := 1000, jwksKids := ["k1"], kid := "k1", sigOk := true,
        payload := { sub := "a1", client_id := some "client-1", token_use := some "access" },
        webResults := [], bedrock := .ok "Logged.", convPutOk := true, adminPutOk := true,
        userPutOk := true, knowledgeScanErr := none, knowledgeDeleteErr := none }
    (handler req env s w).resp.statusCode = 200 ∧
      (handler req env s w).store.budget = s.budget := by
  exact zero_amount_budget_not_persisted _ _ _ _
    { sub := "a1", client_id := some "client-1", token_use := some "access" }
    (by decide) (by decide) (by decide) (by decide) (by decide) (by decide) (by decide)
    (by decide) (by decide)

/-! ### C8 — empty message: 400 with no downstream calls -/

/-- C8: a chat request with an empty `message` is answered with status 400
and body `{"error": "No message provided"}`, with the store untouched and an
empty downstream-call trace (no token verification, no store reads or
writes, no search, no model invocation). -/
theorem empty_message_rejected_before_any_call (req : Request) (env : Env) (s : Store)
    (w : World)
    (hm : req.httpMethod ≠ "OPTIONS")
    (hpath : strStarts req.path "/admin" = false)
    (hmsg : req.message = "") :
    handler req env s w = ⟨⟨400, .error "No message provided"⟩, s, []⟩ := by
  have hcs : req.path ≠ "/admin/check-status" := by
    intro h; rw [h] at hpath; exact absurd hpath (by decide)
  unfold handler
  rw [if_neg hm, if_neg hcs, if_neg (by simp [hpath])]
  unfold chat_request
  rw [if_pos hmsg]

/-- Witness for C8. -/
theorem empty_message_rejected_before_any_call_witness :
    let req : Request :=
      { httpMethod := "POST", path := "/chat", authHeader := "Bearer tok",
        adminKeyHeader := "", message := "", start_new_thread := false, topic := "General",
        bodyKnowledge := "", bodyEmail := "", bodyName := "", bodyRole := "", bodyNotes := "" }
    let env : Env :=
      { userPoolId := "pool-1", clientId := some "client-1", adminApiKey := "admin-key-2024" }
    let s : Store :=
      { users := [], adminKnowledge := [], budget := [], reminders := [],
        conversations := [], searchHistory := [], tasks := [] }
    let w : World :=
      { now := 1000, jwksKids := ["k1"], kid := "k1", sigOk := true,
        payload := { sub := "u1", client_id := some "client-1", token_use := some "access" },
        webResults := [], bedrock := .ok "Hi", convPutOk := true, adminPutOk := true,
        userPutOk := true, knowledgeScanErr := none, knowledgeDeleteErr := none }
    handler req env s w = ⟨⟨400, .error "No message provided"⟩, s, []⟩ := by
  exact empty_message_rejected_before_any_call _ _ _ _ (by decide) (by decide) (by decide)

/-! ### C9 — the empty-message check precedes authentication -/

/-- C9 (implicit): the empty-message check runs before the `Authorization`
header is even inspected, so an empty message yields 400 — not 401 — even
when the header is missing/malformed or the token fails verification. -/
theorem empty_message_beats_bad_auth (req : Request) (env : Env) (s : Store) (w : World)
    (hm : req.httpMethod ≠ "OPTIONS")
    (hpath : strStarts req.path "/admin" = false)
    (hmsg : req.message = "")
    (_hbadauth : strStarts req.authHeader "Bearer " = false ∨
      verify_jwt_token w.jwksKids w.kid w.sigOk w.payload env.clientId = none) :
    (handler req env s w).resp.statusCode = 400 ∧
      (handler req env s w).resp.body = .error "No message provided" := by
  have hcs : req.path ≠ "/admin/check-status" := by
    intro h; rw [h] at hpath; exact absurd hpath (by decide)
  unfold handler
  rw [if_neg hm, if_neg hcs, if_neg (by simp [hpath])]
  unfold chat_request
  rw [if_pos hmsg]
  exact ⟨rfl, rfl⟩

/-- Witness for C9: no `Authorization` header at all, message empty — still
the 400 of the empty-message check. -/
theorem empty_message_beats_bad_auth_witness :
    let req : Request :=
      { httpMethod := "POST", path := "/chat", authHeader := "",
        adminKeyHeader := "", message := "", start_new_thread := false, topic := "General",
        bodyKnowledge := "", bodyEmail := "", bodyName := "", bodyRole := "", bodyNotes := "" }
    let env : Env :=
      { userPoolId := "pool-1", clientId := some "client-1", adminApiKey := "admin-key-2024" }
    let s : Store :=
      { users := [], adminKnowledge := [], budget := [], reminders := [],
        conversations := [], searchHistory := [], tasks := [] }
    let w : World :=
      { now := 1000, jwksKids := ["k1"], kid := "k1", sigOk := true,
        payload := { sub := "u1", client_id := some "client-1", token_use := some "access" },
        webResults := [], bedrock := .ok "Hi", convPutOk := true, adminPutOk := true,
        userPutOk := true, knowledgeScanErr := none, knowledgeDeleteErr := none }
    (handler req env s w).resp.statusCode = 400 ∧
      (handler req env s w).resp.body = .error "No message provided" := by
  exact empty_message_beats_bad_auth _ _ _ _ (by decide) (by decide) (by decide)
    (Or.inl (by decide))

/-! ### C4 — thread-id reuse inside the 30-minute window -/

theorem mintThreadId_inj_time (u topic : String) (t1 t2 : Nat)
    (h : mintThreadId u topic t1 = mintThreadId u topic t2) : t1 = t2 := by
  unfold mintThreadId at h
  have hd := congrArg String.data h
  simp only [String.data_append, List.append_assoc] at hd
  have h2 := List.append_cancel_left (List.append_cancel_left (List.append_cancel_left
    (List.append_cancel_left (List.append_cancel_left hd))))
  have h3 := congrArg (fun l : List Char => valOfDigitsRev l.reverse) h2
  simp only [natRepr_val] at h3
  exact h3

/-- Counterexample for C4 as frozen: the `Limit=1` query evaluates only the
user's single most recent turn of *any* topic before the topic filter, so an
interleaved turn on another topic makes the code mint a fresh thread id even
though the latest same-topic turn is 120 s old — the frozen claim demands
reuse there. -/
theorem thread_id_interleaved_counterexample :
    let cGen : ConvItem :=
      { user_id := "u1", conversation_id := "conv_1000",
        thread_id := mintThreadId "u1" "General" 1000, topic := "General", timestamp := 1000,
        user_message := "hi", ai_response := "hello", ttl := 0 }
    let cOther : ConvItem :=
      { user_id := "u1", conversation_id := "conv_1060",
        thread_id := mintThreadId "u1" "Other" 1060, topic := "Other", timestamp := 1060,
        user_message := "other things", ai_response := "ok", ttl := 0 }
    let s : Store :=
      { users := [], adminKnowledge := [], budget := [], reminders := [],
        conversations := [cOther, cGen], searchHistory := [], tasks := [] }
    ((s.conversations.filter
        (fun cc => cc.user_id == "u1" && cc.topic == "General")).head? = some cGen) ∧
      1120 - cGen.timestamp < 1800 ∧
      get_or_create_thread_id "u1" s "General" 1120 = mintThreadId "u1" "General" 1120 ∧
      get_or_create_thread_id "u1" s "General" 1120 ≠ cGen.thread_id := by
  intro cGen cOther s
  decide

/-- C4 (amended): because the `Limit=1` query inspects only the user's most
recent stored turn of *any* topic, the 30-minute window rule holds for a
pair of same-topic turns exactly when the first is the user's most recent
turn overall (its thread id minted at some `t0 < t2`): a second turn at
`t2 ≥ t1` then reuses the first's thread id when `t2 - t1 < 1800` and
otherwise mints a fresh thread id distinct from the first's.  With an
interleaved other-topic turn a fresh thread id is minted even inside the
window (see `thread_id_interleaved_counterexample`). -/
theorem thread_id_reuse_window (s : Store) (u topic : String) (c : ConvItem) (t0 t2 : Nat)
    (hlatest : (s.conversations.filter (fun cc => cc.user_id == u)).head? = some c)
    (htopic : c.topic = topic)
    (_hle : c.timestamp ≤ t2) :
    (t2 - c.timestamp < 1800 → get_or_create_thread_id u s topic t2 = c.thread_id) ∧
      (1800 ≤ t2 - c.timestamp →
        get_or_create_thread_id u s topic t2 = mintThreadId u topic t2 ∧
          (c.thread_id = mintThreadId u topic t0 → t0 < t2 →
            get_or_create_thread_id u s topic t2 ≠ c.thread_id)) := by
  unfold get_or_create_thread_id
  rcases hl : s.conversations.filter (fun cc => cc.user_id == u) with _ | ⟨x, xs⟩
  · rw [hl] at hlatest
    simp at hlatest
  · rw [hl] at hlatest
    simp only [List.head?_cons, Option.some.injEq] at hlatest
    subst hlatest
    have h1 : ((x :: xs).take 1).filter (fun cc => cc.topic == topic) = [x] := by
      simp [htopic]
    rw [hl, h1]
    simp only [List.head?_cons]
    constructor
    · intro hlt
      rw [if_pos hlt]
    · intro hge
      have hnlt : ¬ (t2 - x.timestamp < 1800) := by omega
      rw [if_neg hnlt]
      refine ⟨rfl, ?_⟩
      intro hthread hlt0 heq
      rw [hthread] at heq
      have := mintThreadId_inj_time u topic t2 t0 heq
      omega

/-- Witness for C4 (amended): with the first turn at `t1 = 1000` as the
user's only (hence most recent) turn, a turn at `t2 = 2000` (gap 1000 s <
1800 s) reuses its thread id, and a turn at `t2 = 2800` (gap 1800 s) mints a
different one. -/
theorem thread_id_reuse_window_witness :
    let c : ConvItem :=
      { user_id := "u1", conversation_id := "conv_1000",
        thread_id := mintThreadId "u1" "General" 1000, topic := "General", timestamp := 1000,
        user_message := "hi", ai_response := "hello", ttl := 0 }
    let s : Store :=
      { users := [], adminKnowledge := [], budget := [], reminders := [],
        conversations := [c], searchHistory := [], tasks := [] }
    (get_or_create_thread_id "u1" s "General" 2000 = c.thread_id) ∧
      (get_or_create_thread_id "u1" s "General" 2800 = mintThreadId "u1" "General" 2800 ∧
        get_or_create_thread_id "u1" s "General" 2800 ≠ c.thread_id) := by
  intro c s
  refine ⟨?_, ?_⟩
  · exact (thread_id_reuse_window s "u1" "General" c 1000 2000 (by decide) (by decide)
      (by decide)).1 (by decide)
  · have h := (thread_id_reuse_window s "u1" "General" c 1000 2800 (by decide) (by decide)
      (by decide)).2 (by decide)
    exact ⟨h.1, h.2 rfl (by decide)⟩

/-! ### C5 — research de-duplication and seen-result backfill -/

/-- C5 (amended): a result whose **non-empty** URL appears in the search
history is not selected while the unseen results number at least the
requested maximum; when they number fewer, the selection is the unseen
results padded with previously seen ones up to at most the requested count.
(The non-emptiness condition is forced: `seen_urls` only collects truthy
history URLs, so an empty-URL result is treated as unseen even when an
empty-URL history row exists.) -/
theorem search_dedup_amended (all : List SearchResult) (hist : List SearchHistoryRecord)
    (maxR : Nat) (r : SearchResult) :
    (maxR ≤ (get_unseen_results all hist).length → r.url ≠ "" →
      (∃ h ∈ hist, h.result_url = r.url) → r ∉ select_search_results all hist maxR) ∧
      ((get_unseen_results all hist).length < maxR →
        (select_search_results all hist maxR).length ≤ maxR ∧
          ∃ pad, select_search_results all hist maxR = get_unseen_results all hist ++ pad ∧
            ∀ x ∈ pad, ∃ h ∈ hist, h.result_url = x.url) := by
  constructor
  · rintro hge hurl ⟨h, hh, hhu⟩ hmem
    unfold select_search_results at hmem
    dsimp only at hmem
    rw [if_neg (by omega)] at hmem
    have hmem2 := List.mem_of_mem_take hmem
    unfold get_unseen_results at hmem2
    rw [List.mem_filter] at hmem2
    obtain ⟨-, hflt⟩ := hmem2
    simp only [Bool.not_eq_true', List.contains, List.elem_eq_mem,
      decide_eq_false_iff_not] at hflt
    exact hflt (List.mem_map.mpr ⟨h, List.mem_filter.mpr ⟨hh, by simp [hhu, hurl]⟩, hhu⟩)
  · intro hlt
    unfold select_search_results
    dsimp only
    rw [if_pos hlt]
    have hlen : (get_unseen_results all hist ++
        (seenResultsOf all hist).take (maxR - (get_unseen_results all hist).length)).length
          ≤ maxR := by
      rw [List.length_append, List.length_take]
      omega
    rw [List.take_of_length_le hlen]
    refine ⟨hlen, _, rfl, ?_⟩
    intro x hx
    have hx2 := List.mem_of_mem_take hx
    unfold seenResultsOf at hx2
    rw [List.mem_filter] at hx2
    obtain ⟨-, hc⟩ := hx2
    simp only [List.contains, List.elem_eq_mem, List.mem_map, decide_eq_true_eq] at hc
    obtain ⟨h, hh, hhu⟩ := hc
    exact ⟨h, hh, hhu⟩

/-- Counterexample for C5 as frozen: with an empty-URL history row, a result
whose (empty) URL appears in the history **is** selected although unseen
results number at least the requested maximum (and a fresh alternative
exists) — `seen_urls` drops falsy URLs, so the empty-URL result counts as
unseen. -/
theorem search_dedup_counterexample :
    let r0 : SearchResult := { title := "t0", content := "c0", url := "", source := "s0" }
    let r1 : SearchResult :=
      { title := "t1", content := "c1", url := "https://example.com/a", source := "s1" }
    let hist : List SearchHistoryRecord :=
      [{ user_id := "u1", topic := "General", search_id := "sid0", search_query := "q",
         result_title := "t0", result_url := "", result_source := "s0", searched_at := 0,
         ttl := 0 }]
    (∃ h ∈ hist, h.result_url = r0.url) ∧
      1 ≤ (get_unseen_results [r0, r1] hist).length ∧
      (¬ ∃ h ∈ hist, h.result_url = r1.url) ∧
      r0 ∈ select_search_results [r0, r1] hist 1 := by
  intro r0 r1 hist
  decide

/-- Witness for C5 (amended): a seen non-empty URL is skipped while an unseen
alternative fills the quota, and with no unseen results the seen one pads the
returned set. -/
theorem search_dedup_amended_witness :
    let x : SearchResult :=
      { title := "fresh", content := "cx", url := "https://example.com/x", source := "sx" }
    let y : SearchResult :=
      { title := "old", content := "cy", url := "https://example.com/y", source := "sy" }
    let hist : List SearchHistoryRecord :=
      [{ user_id := "u1", topic := "General", search_id := "sid1", search_query := "q",
         result_title := "old", result_url := "https://example.com/y", result_source := "sy",
         searched_at := 0, ttl := 0 }]
    (y ∉ select_search_results [x, y] hist 1) ∧
      ((select_search_results [y] hist 2).length ≤ 2 ∧
        ∃ pad, select_search_results [y] hist 2 = get_unseen_results [y] hist ++ pad ∧
          ∀ z ∈ pad, ∃ h ∈ hist, h.result_url = z.url) := by
  intro x y hist
  exact ⟨(search_dedup_amended [x, y] hist 1 y).1 (by decide) (by decide) (by decide),
    (search_dedup_amended [y] hist 2 y).2 (by decide)⟩

/-! ### C6 — the budget-extraction example -/

/-- C6: `extract_budget_info("spent $45 on coffee for 2 weeks")` yields
`amount = 45.0`, `category = "coffee"`, `duration = 2`,
`duration_unit = "week"`. -/
theorem extract_budget_info_spec_example :
    (extract_budget_info "spent $45 on coffee for 2 weeks" 0).amount = some 45 ∧
      (extract_budget_info "spent $45 on coffee for 2 weeks" 0).category = "coffee" ∧
      (extract_budget_info "spent $45 on coffee for 2 weeks" 0).duration = some 2 ∧
      (extract_budget_info "spent $45 on coffee for 2 weeks" 0).duration_unit = some "week" := by
  decide

/-! ### C7 — knowledge-payload extraction -/

/-- Counterexample for C7 as frozen: "admin knowledge the sky is green"
contains the command phrase "admin knowledge" (so
`is_admin_knowledge_command` fires), but the extraction's starter list only
holds "admin knowledge: " with a colon — no starter matches, the word
"remember" is absent, and the whole message is returned instead of the
substring after the matched command phrase. -/
theorem extract_knowledge_counterexample :
    is_admin_knowledge_command "admin knowledge the sky is green" = true ∧
      extract_knowledge_from_command "admin knowledge the sky is green"
        = "admin knowledge the sky is green" ∧
      extract_knowledge_from_command "admin knowledge the sky is green" ≠ "the sky is green" ∧
      extract_knowledge_from_command "admin knowledge the sky is green"
        ≠ " the sky is green" := by
  decide

/-- C7 (amended): extraction matches against *starter* strings — the command
phrases extended with a trailing space or colon-space.  For a message
containing a starter, the result is the stripped substring of the original
message after the first occurrence of the first (in list order) starter; if
no starter occurs but a standalone word "remember" is followed by at least
one more word, the result is the following words rejoined with single
spaces. -/
theorem extract_knowledge_amended :
    (∀ (m st : String) (i : Nat),
      knowledge_starters.find? (fun s => strContains (lowerStr m) s) = some st →
      occIdx st.data (lowerStr m).data = some i →
      extract_knowledge_from_command m
        = pyStrip (String.mk (m.data.drop (i + st.data.length)))) ∧
      (∀ (m : String) (ws : List String),
        (∀ st ∈ knowledge_starters, strContains (lowerStr m) st = false) →
        strContains (lowerStr m) "remember" = true →
        afterRememberWords (pySplit m) = some ws →
        extract_knowledge_from_command m = pyStrip (joinWith " " ws)) := by
  constructor
  · intro m st i hfind hidx
    unfold extract_knowledge_from_command
    dsimp only
    rw [hfind]
    dsimp only
    rw [hidx]
  · intro m ws hnone hrem hafter
    unfold extract_knowledge_from_command
    dsimp only
    have hfind : knowledge_starters.find? (fun s => strContains (lowerStr m) s) = none := by
      rw [List.find?_eq_none]
      intro st hst
      simp [hnone st hst]
    rw [hfind]
    dsimp only
    rw [if_pos hrem, hafter]

/-- Witness for C7 (amended): both branches at concrete messages. -/
theorem extract_knowledge_amended_witness :
    extract_knowledge_from_command "remember that the sky is green" = "the sky is green" ∧
      extract_knowledge_from_command "please remember buy milk" = "buy milk" := by
  constructor
  · have h := extract_knowledge_amended.1 "remember that the sky is green" "remember that " 0
      (by decide) (by decide)
    rw [h]
    decide
  · have h := extract_knowledge_amended.2 "please remember buy milk" ["buy", "milk"]
      (by decide) (by decide) (by decide)
    rw [h]
    decide

/-! ### C3 — what failures look like to the caller -/

/-- Counterexample for C3 as frozen: the `/admin/knowledge` GET route embeds
`str(e)` of the caught exception in its 500 body, so a caller does see
internal error detail there — the body is neither the generic 500 nor a
200-with-apology. -/
theorem internal_error_detail_leak_counterexample :
    let req : Request :=
      { httpMethod := "GET", path := "/admin/knowledge", authHeader := "",
        adminKeyHeader := "admin-key-2024", message := "", start_new_thread := false,
        topic := "General", bodyKnowledge := "", bodyEmail := "", bodyName := "",
        bodyRole := "", bodyNotes := "" }
    let env : Env :=
      { userPoolId := "pool-1", clientId := none, adminApiKey := "admin-key-2024" }
    let s : Store :=
      { users := [], adminKnowledge := [], budget := [], reminders := [],
        conversations := [], searchHistory := [], tasks := [] }
    let w : World :=
      { now := 0, jwksKids := [], kid := "", sigOk := false,
        payload := { sub := "", client_id := none, token_use := none },
        webResults := [], bedrock := .failure, convPutOk := true, adminPutOk := true,
        userPutOk := true,
        knowledgeScanErr := some "ResourceNotFoundException: table missing",
        knowledgeDeleteErr := none }
    (handler req env s w).resp.statusCode = 500 ∧
      (handler req env s w).resp.body
        = .error "Failed to retrieve knowledge: ResourceNotFoundException: table missing" ∧
      strContains "Failed to retrieve knowledge: ResourceNotFoundException: table missing"
        "ResourceNotFoundException" = true ∧
      (handler req env s w).resp.body ≠ .error "Internal server error" ∧
      (handler req env s w).resp.statusCode ≠ 200 := by
  intro req env s w
  decide

/-- C3 (amended): on the chat endpoint (path outside `/admin`) the caller
never sees internal error detail: any non-200 response carries one of the
fixed constant error bodies, and when the model call fails the response is
still a 200 whose text starts with the fixed apology.  The admin
sub-endpoints are excluded: their knowledge routes embed the caught
exception's message in 500 bodies. -/
theorem chat_path_no_internal_detail (req : Request) (env : Env) (s : Store) (w : World)
    (hm : req.httpMethod ≠ "OPTIONS")
    (hpath : strStarts req.path "/admin" = false) :
    ((handler req env s w).resp.statusCode = 200 ∨
      (handler req env s w).resp.body ∈ fixedChatErrorBodies) ∧
      ((handler req env s w).resp.statusCode = 200 → w.bedrock = BedrockOutcome.failure →
        ∃ t, chatText (handler req env s w).resp.body = some (apologyText ++ t)) := by
  have hcs : req.path ≠ "/admin/check-status" := by
    intro h; rw [h] at hpath; exact absurd hpath (by decide)
  unfold handler
  rw [if_neg hm, if_neg hcs, if_neg (by simp [hpath])]
  unfold chat_request
  by_cases h1 : req.message = ""
  · rw [if_pos h1]
    exact ⟨Or.inr (by dsimp only; decide), fun h => absurd h (by dsimp only; decide)⟩
  rw [if_neg h1]
  by_cases h2 : strStarts req.authHeader "Bearer " = false
  · rw [if_pos (by simp [h2])]
    exact ⟨Or.inr (by dsimp only; decide), fun h => absurd h (by dsimp only; decide)⟩
  rw [if_neg (by simp at h2 ⊢; exact h2)]
  by_cases h3 : env.userPoolId = ""
  · rw [if_pos h3]
    exact ⟨Or.inr (by dsimp only; decide), fun h => absurd h (by dsimp only; decide)⟩
  rw [if_neg h3]
  cases hv : verify_jwt_token w.jwksKids w.kid w.sigOk w.payload env.clientId with
  | none =>
    exact ⟨Or.inr (by dsimp only; decide), fun h => absurd h (by dsimp only; decide)⟩
  | some p =>
    refine ⟨Or.inl rfl, fun _ hbed => ?_⟩
    unfold chat_main
    dsimp only
    rw [hbed]
    dsimp only [chatText]
    split
    · exact ⟨reminderNote, rfl⟩
    · exact ⟨"", by rw [String.append_empty]⟩

/-- Witness for C3 (amended): a concrete chat request whose model call fails
still gets a 200 whose text starts with the apology. -/
theorem chat_path_no_internal_detail_witness :
    let req : Request :=
      { httpMethod := "POST", path := "/chat", authHeader := "Bearer tok",
        adminKeyHeader := "", message := "hello there", start_new_thread := false,
        topic := "General", bodyKnowledge := "", bodyEmail := "", bodyName := "",
        bodyRole := "", bodyNotes := "" }
    let env : Env :=
      { userPoolId := "pool-1", clientId := some "client-1", adminApiKey := "admin-key-2024" }
    let s : Store :=
      { users := [], adminKnowledge := [], budget := [], reminders := [],
        conversations := [], searchHistory := [], tasks := [] }
    let w : World :=
      { now := 1000, jwksKids := ["k1"], kid := "k1", sigOk := true,
        payload := { sub := "u1", client_id := some "client-1", token_use := some "access" },
        webResults := [], bedrock := .failure, convPutOk := true, adminPutOk := true,
        userPutOk := true, knowledgeScanErr := none, knowledgeDeleteErr := none }
    ((handler req env s w).resp.statusCode = 200 ∨
      (handler req env s w).resp.body ∈ fixedChatErrorBodies) ∧
      ((handler req env s w).resp.statusCode = 200 → w.bedrock = BedrockOutcome.failure →
        ∃ t, chatText (handler req env s w).resp.body = some (apologyText ++ t)) := by
  intro req env s w
  exact chat_path_no_internal_detail req env s w (by decide) (by decide)
